import Mathlib

/-!
Verification development for the auto-login visual-interaction engine.

The definitions below are a shallow embedding of the Python sources
(`src/click_ops.py`, `src/process_ops.py`, `src/runner.py`, `src/ocr_ops.py`).
Machine floats are modelled as rationals, wall-clock sleeps are dropped
(they have no observable effect on the values the claims are about), and
effectful collaborators (window activation, input injection, OCR capture,
template checks) are modelled as oracles supplied per call site.

A few helpers (`is_point_in_rect`, `compute_visible_ratio`,
`click_bbox_center`) are imported by the sources from `ui_ops` but are not
present in the repository snapshot; they are modelled from the spec and
are marked as such in their doc comments.
-/

namespace AutoLogin

/-- A point in absolute desktop coordinates, `(x, y)`. -/
abbrev Point := Int × Int

/-- `ScreenRect {left, top, width, height}` — integer pixel rectangle in
absolute desktop coordinates (spec §3), carried in the sources as a
4-tuple `(left, top, width, height)`. -/
structure ScreenRect where
  left : Int
  top : Int
  width : Int
  height : Int
  deriving DecidableEq, Repr

/-- Modelled from the spec: `is_point_in_rect` is imported from `ui_ops`
but missing from the snapshot (only its tests and callers remain).  A
point lies in a rectangle using the half-open pixel convention
`left ≤ x < left + width`, `top ≤ y < top + height`; this matches the
repository test `is_point_in_rect((1919,1079),(0,0,1920,1080)) is True`
and the half-open guard-band comparison in `_is_point_clickable`. -/
def is_point_in_rect (p : Point) (r : ScreenRect) : Bool :=
  decide (r.left ≤ p.1 ∧ p.1 < r.left + r.width ∧
    r.top ≤ p.2 ∧ p.2 < r.top + r.height)

/-- Modelled from the spec: `intersect_rect` is imported from `ui_ops` but
missing from the snapshot.  Intersection of two rectangles, with empty
overlap clamped to zero width/height; matches the repository test
`intersect_rect((0,0,100,100),(50,30,80,50)) == (50,30,50,50)`. -/
def intersect_rect (a b : ScreenRect) : ScreenRect :=
  let left := max a.left b.left
  let top := max a.top b.top
  let right := min (a.left + a.width) (b.left + b.width)
  let bottom := min (a.top + a.height) (b.top + b.height)
  ⟨left, top, max 0 (right - left), max 0 (bottom - top)⟩

/-- Modelled from the spec: `compute_visible_ratio` is imported from
`ui_ops` but missing from the snapshot.  Spec §4.1:
`compute_visible_ratio(window_rect, visible_rect) -> float in [0,1]` =
area of intersection ÷ area of window.  The Python float is modelled as a
rational. -/
def compute_visible_ratio (window_rect visible_rect : ScreenRect) : ℚ :=
  let inter := intersect_rect window_rect visible_rect
  ((inter.width * inter.height : Int) : ℚ) /
    ((window_rect.width * window_rect.height : Int) : ℚ)

/-- `_compute_recovered_window_rect` from `src/process_ops.py`: the pure
clamping computation used by window recovery. -/
def compute_recovered_window_rect (window_rect visible_rect : ScreenRect)
    (padding_px : Int) (allow_resize : Bool) : ScreenRect :=
  let padding := max 0 padding_px
  let target_width :=
    if allow_resize then
      min window_rect.width (max 1 (visible_rect.width - padding * 2))
    else window_rect.width
  let target_height :=
    if allow_resize then
      min window_rect.height (max 1 (visible_rect.height - padding * 2))
    else window_rect.height
  let min_left := visible_rect.left + padding
  let max_left := visible_rect.left + visible_rect.width - target_width - padding
  let min_top := visible_rect.top + padding
  let max_top := visible_rect.top + visible_rect.height - target_height - padding
  let target_left :=
    if max_left < min_left then visible_rect.left
    else min (max window_rect.left min_left) max_left
  let target_top :=
    if max_top < min_top then visible_rect.top
    else min (max window_rect.top min_top) max_top
  ⟨target_left, target_top, target_width, target_height⟩

/-- `_is_point_clickable` from `src/click_ops.py`: containment in the
visible rect, then (for positive guard padding on a rect large enough in
both dimensions) containment in the guard band. -/
def is_point_clickable (point : Point) (visible_rect : ScreenRect)
    (guard_padding : Int) : Bool :=
  if ¬ is_point_in_rect point visible_rect then false
  else if guard_padding ≤ 0 then true
  else if visible_rect.width ≤ guard_padding * 2 ∨
      visible_rect.height ≤ guard_padding * 2 then true
  else
    decide (visible_rect.left + guard_padding ≤ point.1 ∧
      point.1 < visible_rect.left + visible_rect.width - guard_padding ∧
      visible_rect.top + guard_padding ≤ point.2 ∧
      point.2 < visible_rect.top + visible_rect.height - guard_padding)

/-- One raw entry of the duck-typed `flow.click_candidates` list:
either a well-formed pair (list/tuple of length 2) or a malformed entry
that `_build_candidate_offsets` skips. -/
inductive RawOffset where
  | pair (dx dy : Int)
  | malformed
  deriving DecidableEq, Repr

/-- `_build_candidate_offsets` from `src/click_ops.py`: keep well-formed
pairs, and replace an empty result with the single offset `(0, 0)`. -/
def build_candidate_offsets (raw : List RawOffset) : List (Int × Int) :=
  let offsets := raw.filterMap (fun item =>
    match item with
    | .pair dx dy => some (dx, dy)
    | .malformed => none)
  if offsets = [] then [(0, 0)] else offsets

/-- One raw entry of the duck-typed `flow.click_backoff_ms` list: either a
value `int()` accepts (modelled by its integer value, in milliseconds) or
an entry whose conversion raises and is skipped. -/
inductive RawBackoff where
  | ms (value : Int)
  | unconvertible
  deriving DecidableEq, Repr

/-- `_build_backoff_seconds` from `src/click_ops.py`: convert entries to
seconds, skipping unconvertible and negative values; an empty result is
replaced by `[0.0]`.  Python floats are modelled as rationals. -/
def build_backoff_seconds (raw : List RawBackoff) : List ℚ :=
  let values := raw.filterMap (fun item =>
    match item with
    | .ms value => if value < 0 then none else some ((value : ℚ) / 1000)
    | .unconvertible => none)
  if values = [] then [0] else values

/-- Result of one `verify_action(point, click_time)` invocation: the
callback returns a boolean or raises. -/
inductive VerifyOutcome where
  | pass
  | fail
  | error (detail : String)
  deriving DecidableEq, Repr

/-- Result of one `fallback_action()` invocation: the callback returns a
boolean or raises. -/
inductive FallbackOutcome where
  | ok
  | notOk
  | error (detail : String)
  deriving DecidableEq, Repr

/-- The fixed taxonomy of click attempt/result reason strings from
`src/click_ops.py`; `<detail>` payloads of the f-string reasons are kept
as constructor arguments. -/
inductive ClickReason where
  | activate_or_foreground_check_failed
  | resolve_base_point_failed (detail : Option String)
  | base_point_outside_work_rect (point : Point) (rect : ScreenRect) (guard : Int)
  | candidate_outside_work_rect (rect : ScreenRect) (guard : Int)
  | click_failed (detail : String)
  | foreground_lost_after_click
  | ok_without_verify
  | ok_verified
  | verify_failed
  | verify_error (detail : String)
  | ocr_fallback_error (detail : String)
  | ocr_fallback_success
  | click_no_attempt
  | resolve_point_failed (detail : String)
  deriving DecidableEq, Repr

/-- `ClickAttemptResult` from `src/click_ops.py` (wall-clock fields are
not modelled; `offset_index` is an `Int` because the source uses the
sentinels `-1` and `-2`). -/
structure ClickAttemptResult where
  success : Bool
  point : Point
  round_index : Nat
  offset_index : Int
  reason : ClickReason
  deriving DecidableEq, Repr

/-- `ClickResult` from `src/click_ops.py` (`success_click_time` is a
wall-clock value and is not modelled). -/
structure ClickResult where
  success : Bool
  attempts : List ClickAttemptResult
  final_reason : ClickReason
  success_point : Option Point
  deriving DecidableEq, Repr

/-- The duck-typed `flow` configuration fields read (via
`getattr(..., default)`) by `click_point_with_strategy` and
`_resolve_base_point_with_recover`. -/
structure FlowClickConfig where
  click_strategy_enabled : Bool
  click_max_attempts : Int
  click_point_guard_padding_px : Int
  click_verify_foreground_enabled : Bool
  click_ocr_fallback_enabled : Bool
  click_candidates : List RawOffset
  click_backoff_ms : List RawBackoff
  window_auto_recover_max_attempts : Int

/-- Oracle for the effectful collaborators consulted by one invocation of
`click_point_with_strategy`: indexed by round (1-based) and, where
relevant, recover-attempt or offset index, so that re-consultation on a
later round/attempt may observe a changed desktop. -/
structure ClickEnv where
  /-- `_activate_target_window` succeeded on this round. -/
  activateOk : Nat → Bool
  /-- `point_provider()` on (round, recover attempt): resolved point, or
  the exception detail if it raised.  The no-strategy fast path consults
  `(0, 0)`. -/
  resolvePoint : Nat → Nat → Except String Point
  /-- `_get_window_visible_rect` on (round, call index); call index `0` is
  the read before the recover loop. -/
  visibleRectAt : Nat → Nat → ScreenRect
  /-- `click_point` on (round, offset index): `none` if injection
  succeeded, otherwise the exception detail. -/
  injectResult : Nat → Nat → Option String
  /-- `_is_window_in_foreground` re-check after the click. -/
  foregroundAfterClick : Nat → Nat → Bool
  /-- `verify_action(point, click_time)` on (round, offset index);
  consulted only when a verify callback is present. -/
  verifyResult : Nat → Nat → VerifyOutcome

/-- The attempt loop of `_resolve_base_point_with_recover`: `fuel` is the
number of remaining loop iterations and `attempt` the 1-based attempt
counter; `rect`/`lastReason` carry the current `visible_rect` and
`last_reason` locals.  Returns the resolved `(base_point, visible_rect)`
or the failing `(visible_rect, reason)` pair. -/
def resolve_base_loop (env : ClickEnv) (round : Nat) (guard : Int)
    (recover_enabled : Bool) (maxRecover : Nat) :
    Nat → Nat → ScreenRect → ClickReason →
    Except (ScreenRect × ClickReason) (Point × ScreenRect)
  | _, 0, rect, lastReason => .error (rect, lastReason)
  | attempt, fuel + 1, rect, _ =>
    match env.resolvePoint round attempt with
    | .error d => .error (rect, .resolve_base_point_failed (some d))
    | .ok p =>
      let rect2 := env.visibleRectAt round attempt
      if is_point_clickable p rect2 guard then .ok (p, rect2)
      else
        let reason := ClickReason.base_point_outside_work_rect p rect2 guard
        if ¬ recover_enabled then .error (rect2, reason)
        else if maxRecover ≤ attempt then .error (rect2, reason)
        else
          resolve_base_loop env round guard recover_enabled maxRecover
            (attempt + 1) fuel rect2 reason

/-- `_resolve_base_point_with_recover` from `src/click_ops.py` (the
`recover_window_to_visible` call and cooldown sleep have no effect on the
returned value beyond what later `resolvePoint`/`visibleRectAt`
consultations observe, and are dropped). -/
def resolve_base_point_with_recover (flow : FlowClickConfig) (env : ClickEnv)
    (round : Nat) (recover_enabled : Bool) (guard : Int) :
    Except (ScreenRect × ClickReason) (Point × ScreenRect) :=
  let maxRecover := (max 1 flow.window_auto_recover_max_attempts).toNat
  resolve_base_loop env round guard recover_enabled maxRecover 1 maxRecover
    (env.visibleRectAt round 0) (.resolve_base_point_failed none)

/-- The per-offset inner loop of `click_point_with_strategy` for one
round: returns the attempt records appended by this round's offset loop
and, on success, the succeeding point with its reason. -/
def offsets_attempt_loop (env : ClickEnv) (round : Nat) (guard : Int)
    (verify_foreground verify_present : Bool) (base : Point)
    (rect : ScreenRect) :
    List (Int × Int) → Nat → List ClickAttemptResult × Option (Point × ClickReason)
  | [], _ => ([], none)
  | (dx, dy) :: rest, idx =>
    let p : Point := (base.1 + dx, base.2 + dy)
    let next := fun (a : ClickAttemptResult) =>
      ((offsets_attempt_loop env round guard verify_foreground
          verify_present base rect rest (idx + 1)).1.cons a,
       (offsets_attempt_loop env round guard verify_foreground
          verify_present base rect rest (idx + 1)).2)
    if ¬ is_point_clickable p rect guard then
      next ⟨false, p, round, (idx : Int), .candidate_outside_work_rect rect guard⟩
    else
      match env.injectResult round idx with
      | some d => next ⟨false, p, round, (idx : Int), .click_failed d⟩
      | none =>
        if verify_foreground ∧ ¬ env.foregroundAfterClick round idx then
          next ⟨false, p, round, (idx : Int), .foreground_lost_after_click⟩
        else if ¬ verify_present then
          ([⟨true, p, round, (idx : Int), .ok_without_verify⟩],
            some (p, .ok_without_verify))
        else
          match env.verifyResult round idx with
          | .error d => next ⟨false, p, round, (idx : Int), .verify_error d⟩
          | .pass =>
            ([⟨true, p, round, (idx : Int), .ok_verified⟩], some (p, .ok_verified))
          | .fail => next ⟨false, p, round, (idx : Int), .verify_failed⟩

/-- The round loop of `click_point_with_strategy`: `fuel` counts the
remaining rounds, `round` is the 1-based round index.  Backoff sleeps
have no observable effect and are dropped. -/
def rounds_loop (flow : FlowClickConfig) (env : ClickEnv)
    (recover_enabled verify_present : Bool) (offsets : List (Int × Int))
    (guard : Int) (verify_foreground : Bool) :
    Nat → Nat → List ClickAttemptResult × Option (Point × ClickReason)
  | _, 0 => ([], none)
  | round, fuel + 1 =>
    if ¬ env.activateOk round then
      ((rounds_loop flow env recover_enabled verify_present offsets
          guard verify_foreground (round + 1) fuel).1.cons
        ⟨false, (0, 0), round, -1, .activate_or_foreground_check_failed⟩,
       (rounds_loop flow env recover_enabled verify_present offsets
          guard verify_foreground (round + 1) fuel).2)
    else
      match resolve_base_point_with_recover flow env round recover_enabled guard with
      | .error (_, reason) =>
        ((rounds_loop flow env recover_enabled verify_present offsets
            guard verify_foreground (round + 1) fuel).1.cons
          ⟨false, (0, 0), round, -1, reason⟩,
         (rounds_loop flow env recover_enabled verify_present offsets
            guard verify_foreground (round + 1) fuel).2)
      | .ok (base, rect) =>
        match (offsets_attempt_loop env round guard verify_foreground
            verify_present base rect offsets 0).2 with
        | some s =>
          ((offsets_attempt_loop env round guard verify_foreground
              verify_present base rect offsets 0).1, some s)
        | none =>
          ((offsets_attempt_loop env round guard verify_foreground
              verify_present base rect offsets 0).1 ++
            (rounds_loop flow env recover_enabled verify_present offsets
              guard verify_foreground (round + 1) fuel).1,
           (rounds_loop flow env recover_enabled verify_present offsets
              guard verify_foreground (round + 1) fuel).2)

/-- `final_reason = attempts[-1].reason if attempts else "click_no_attempt"`. -/
def last_attempt_reason (attempts : List ClickAttemptResult) : ClickReason :=
  match attempts.getLast? with
  | some a => a.reason
  | none => .click_no_attempt

/-- `_click_without_strategy` from `src/click_ops.py`: the fast path when
the strategy is disabled (its single consultations use indices `(0, 0)`
of the oracle). -/
def click_without_strategy (env : ClickEnv) (verify_present : Bool) : ClickResult :=
  match env.resolvePoint 0 0 with
  | .error d => ⟨false, [], .resolve_point_failed d, none⟩
  | .ok p =>
    match env.injectResult 0 0 with
    | some d => ⟨false, [⟨false, p, 1, 0, .click_failed d⟩], .click_failed d, none⟩
    | none =>
      if ¬ verify_present then
        ⟨true, [⟨true, p, 1, 0, .ok_without_verify⟩], .ok_without_verify, some p⟩
      else
        match env.verifyResult 0 0 with
        | .pass => ⟨true, [⟨true, p, 1, 0, .ok_verified⟩], .ok_verified, some p⟩
        | .fail => ⟨false, [⟨false, p, 1, 0, .verify_failed⟩], .verify_failed, none⟩
        | .error d =>
          ⟨false, [⟨false, p, 1, 0, .verify_error d⟩], .verify_error d, none⟩

/-- `click_point_with_strategy` from `src/click_ops.py`.  `fallback` is
`none` when no `fallback_action` is configured, otherwise the outcome of
its (single) invocation. -/
def click_point_with_strategy (flow : FlowClickConfig) (env : ClickEnv)
    (recover_enabled verify_present : Bool)
    (fallback : Option FallbackOutcome) : ClickResult :=
  if ¬ flow.click_strategy_enabled then click_without_strategy env verify_present
  else
    let max_attempts := (max 1 flow.click_max_attempts).toNat
    let guard := max 0 flow.click_point_guard_padding_px
    let verify_foreground := flow.click_verify_foreground_enabled
    let ocr_fallback_enabled := flow.click_ocr_fallback_enabled
    let offsets := build_candidate_offsets flow.click_candidates
    let _backoff := build_backoff_seconds flow.click_backoff_ms
    let attempts := (rounds_loop flow env recover_enabled verify_present
      offsets guard verify_foreground 1 max_attempts).1
    match (rounds_loop flow env recover_enabled verify_present
      offsets guard verify_foreground 1 max_attempts).2 with
    | some (p, reason) => ⟨true, attempts, reason, some p⟩
    | none =>
      match (if ocr_fallback_enabled then fallback else none) with
      | some .ok =>
        let a := attempts ++
          [⟨true, (0, 0), max_attempts, -2, .ocr_fallback_success⟩]
        ⟨true, a, .ocr_fallback_success, none⟩
      | some (.error d) =>
        let a := attempts ++
          [⟨false, (0, 0), max_attempts, -2, .ocr_fallback_error d⟩]
        ⟨false, a, last_attempt_reason a, none⟩
      | _ => ⟨false, attempts, last_attempt_reason attempts, none⟩

/-- `_build_click_fallback` from `src/runner.py` composed with the result
of `_click_ocr_keyword_fallback` (given as the boolean
`keyword_click_ok`): the constructed fallback reports success only when
the flow-level switch is on, the OCR keyword click succeeded, and — when
a `verify_action` was supplied to the builder — the extra invocation of
`verify` at point `(0, 0)` with the current time also passes (an
exception from it counts as failure). -/
def build_click_fallback (flow_fallback_enabled keyword_click_ok : Bool)
    (verify_present : Bool) (verify_at_origin : VerifyOutcome) : Bool :=
  if ¬ flow_fallback_enabled then false
  else if ¬ keyword_click_ok then false
  else if ¬ verify_present then true
  else
    match verify_at_origin with
    | .pass => true
    | .fail => false
    | .error _ => false

/-- Outcome of one `SceneChecker.check()` call: the predicate returns a
boolean or raises (exceptions are logged and treated as no-match).  Spec
§3 declares checkers side-effect-free, so the outcome is modelled as a
fixed value per checker. -/
inductive CheckOutcome where
  | matched
  | unmatched
  | raised
  deriving DecidableEq, Repr

/-- `SceneChecker` from `src/runner.py`. -/
structure SceneChecker where
  name : String
  check : CheckOutcome
  deriving DecidableEq, Repr

/-- Python truthiness of the `Optional[str]` scene results tested by
`if scene:` — `None` and the empty string are falsy. -/
def scene_truthy : Option String → Bool
  | some s => ¬ s.isEmpty
  | none => false

/-- `_scan_scene_checkers` from `src/runner.py`, instrumented with the
trace of checker indices whose `check()` was evaluated (every index
consumed up to and including the first match).  Callers only pass
in-range indices; an out-of-range index contributes no evaluation. -/
def scan_scene_checkers_trace (checkers : List SceneChecker) :
    List Nat → List Nat × Option String
  | [] => ([], none)
  | i :: rest =>
    match checkers[i]? with
    | none => scan_scene_checkers_trace checkers rest
    | some c =>
      match c.check with
      | .matched => ([i], some c.name)
      | _ =>
        ((scan_scene_checkers_trace checkers rest).1.cons i,
          (scan_scene_checkers_trace checkers rest).2)

/-- `_scan_scene_checkers` from `src/runner.py`: the first checker (in the
given index order) whose predicate returns `True`; raised predicates are
skipped. -/
def scan_scene_checkers (checkers : List SceneChecker) (indices : List Nat) :
    Option String :=
  (scan_scene_checkers_trace checkers indices).2

/-- `_find_scene_index` from `src/runner.py`: the index of the first
checker with the given name, `none` when absent (the source's
`enumerate` loop). -/
def find_scene_index (checkers : List SceneChecker) (scene_name : String) :
    Option Nat :=
  match checkers with
  | [] => none
  | c :: rest =>
    if c.name = scene_name then some 0
    else (find_scene_index rest scene_name).map (· + 1)

/-- The round loop of `_template_exception_flow`: each round scans the
forward index list then, if that found nothing truthy, the backward
index list; the trace accumulates evaluated indices across rounds. -/
def template_rounds_loop (checkers : List SceneChecker)
    (fwd bwd : List Nat) : Nat → List Nat × Option String
  | 0 => ([], none)
  | n + 1 =>
    if scene_truthy (scan_scene_checkers_trace checkers fwd).2 then
      scan_scene_checkers_trace checkers fwd
    else if scene_truthy (scan_scene_checkers_trace checkers bwd).2 then
      ((scan_scene_checkers_trace checkers fwd).1 ++
        (scan_scene_checkers_trace checkers bwd).1,
       (scan_scene_checkers_trace checkers bwd).2)
    else
      ((scan_scene_checkers_trace checkers fwd).1 ++
        (scan_scene_checkers_trace checkers bwd).1 ++
        (template_rounds_loop checkers fwd bwd n).1,
       (template_rounds_loop checkers fwd bwd n).2)

/-- `_template_exception_flow` from `src/runner.py`, instrumented with the
trace of evaluated checker indices: starting from the expected scene's
index (0 if the expected scene is absent), scan forward to the end of the
checker list, then backward from the expected index to the start,
repeated for at most `rounds` rounds. -/
def template_exception_flow_trace (expected_scene : String)
    (checkers : List SceneChecker) (rounds : Int) :
    List Nat × Option String :=
  if checkers = [] then ([], none)
  else if rounds ≤ 0 then ([], none)
  else
    let expected_index := (find_scene_index checkers expected_scene).getD 0
    let forward_indices := List.range' expected_index (checkers.length - expected_index)
    let backward_indices := (List.range (expected_index + 1)).reverse
    template_rounds_loop checkers forward_indices backward_indices rounds.toNat

/-- `_template_exception_flow` from `src/runner.py` (returned scene only). -/
def template_exception_flow (expected_scene : String)
    (checkers : List SceneChecker) (rounds : Int) : Option String :=
  (template_exception_flow_trace expected_scene checkers rounds).2

/-- `haystack.startsWith needle` on character lists. -/
def chars_start_with : List Char → List Char → Bool
  | _, [] => true
  | [], _ :: _ => false
  | d :: hs, c :: ns => c = d && chars_start_with hs ns

/-- Python's substring operator `needle in haystack` on character lists. -/
def chars_contain (h n : List Char) : Bool :=
  if chars_start_with h n then true
  else
    match h with
    | [] => false
    | _ :: t => chars_contain t n

/-- Python `needle in haystack` on strings. -/
def str_contains (haystack needle : String) : Bool :=
  chars_contain haystack.data needle.data

/-- Python `"".join(s.split())`: drop all whitespace characters. -/
def strip_all_whitespace (s : String) : String :=
  String.mk (s.data.filter (fun c => ¬ c.isWhitespace))

/-- `OcrItem` from `src/ocr_ops.py` (the raw `box` polygon is carried
nowhere the claims reach and is omitted; scores are rationals standing in
for Python floats). -/
structure OcrItem where
  text : String
  score : Option ℚ
  bbox : Option (Int × Int × Int × Int)
  deriving DecidableEq, Repr

/-- `find_keyword_items` from `src/ocr_ops.py`: items with non-empty text
containing some keyword (case-sensitive substring) whose score — treated
as `1.0` when absent — is at least `min_score`. -/
def find_keyword_items (items : List OcrItem) (keywords : List String)
    (min_score : ℚ) : List OcrItem :=
  if items = [] ∨ keywords = [] then []
  else
    items.filter (fun item =>
      ¬ item.text.isEmpty &&
      keywords.any (fun kw => str_contains item.text kw) &&
      decide (min_score ≤ item.score.getD 1))

/-- The sort key `lambda item: item.score or 1.0` used when ordering
clickable OCR hits: Python's `or` makes both a missing score and a score
of exactly `0.0` fall back to `1.0`. -/
def ocr_sort_key (item : OcrItem) : ℚ :=
  match item.score with
  | none => 1
  | some s => if s = 0 then 1 else s

/-- Stable insertion into a descending-ordered list: `x` is placed before
the first element whose key is ≤ its own, so earlier-listed items keep
priority among equal keys — the ordering Python's stable
`list.sort(key=..., reverse=True)` produces. -/
def insert_desc (key : OcrItem → ℚ) (x : OcrItem) :
    List OcrItem → List OcrItem
  | [] => [x]
  | y :: ys => if key y ≤ key x then x :: y :: ys else y :: insert_desc key x ys

/-- Stable descending sort by key, modelling
`clickable.sort(key=lambda item: item.score or 1.0, reverse=True)`. -/
def sort_desc (key : OcrItem → ℚ) : List OcrItem → List OcrItem
  | [] => []
  | x :: xs => insert_desc key x (sort_desc key xs)

/-- Modelled from the spec: `click_bbox_center` is imported from `ui_ops`
but missing from the snapshot.  Per the spec, the exception click targets
"the bounding-box center of the highest-confidence match"; the center is
computed as in `OcrItem.center` in `src/ocr_ops.py`. -/
def click_bbox_center (bbox : Int × Int × Int × Int) : Point :=
  let (left, top, right, bottom) := bbox
  (Int.tdiv (left + right) 2, Int.tdiv (top + bottom) 2)

/-- The hardcoded switch `keyboard_actions_enabled` inside
`_ocr_exception_flow` in `src/runner.py`: blind key-press recovery is
kept behind this switch, which the source sets to `False`. -/
def keyboard_actions_enabled : Bool := false

/-- The mailbox marker strings hardcoded in `_ocr_exception_flow`. -/
def mailbox_markers : List String := ["发送邮件", "邮件保管箱"]

/-- The terminal in-game scene name used by `_ocr_exception_flow`. -/
def in_game_scene : String := "进入游戏界面"

/-- Everything `_ocr_exception_flow` does that is visible outside of it:
the scene it returns, the exception click it performed (if any), and the
blind key presses it sent (in order). -/
structure OcrFlowResult where
  scene : Option String
  clicked_point : Option Point
  key_presses : List String
  deriving DecidableEq, Repr

/-- The part of `_ocr_exception_flow` after the mailbox special case:
optional blind key presses (each followed by a one-round template rescan,
whose results are the `rescan_after_key` oracle), then the clickable-
keyword click followed by one template rescan (`rescan_after_click`). -/
def ocr_exception_actions (clickable_keywords : List String) (min_score : ℚ)
    (items : List OcrItem) (keyboard_enabled : Bool)
    (rescan_after_key : Nat → Option String)
    (rescan_after_click : Option String) : OcrFlowResult :=
  let finish := fun (presses : List String) =>
    let clickable := find_keyword_items items clickable_keywords min_score
    if clickable ≠ [] ∧ clickable_keywords ≠ [] then
      match (sort_desc ocr_sort_key clickable).head? with
      | some target =>
        match target.bbox with
        | some b =>
          let s := rescan_after_click
          ⟨if scene_truthy s then s else none, some (click_bbox_center b), presses⟩
        | none => ⟨none, none, presses⟩
      | none => ⟨none, none, presses⟩
    else ⟨none, none, presses⟩
  if keyboard_enabled then
    let s1 := rescan_after_key 0
    if scene_truthy s1 then ⟨s1, none, ["esc"]⟩
    else
      let s2 := rescan_after_key 1
      if scene_truthy s2 then ⟨s2, none, ["esc", "enter"]⟩
      else finish ["esc", "enter"]
  else finish []

/-- `_ocr_exception_flow` from `src/runner.py`, over the recognized items
returned by `ocr_window_items` (an oracle: OCR capture is effectful) and
the results of the embedded one-round template rescans.  The keyboard
switch is passed explicitly so its default can be stated; the source
fixes it to `keyboard_actions_enabled = False`. -/
def ocr_exception_flow_with_keyboard (exception_keywords clickable_keywords : List String)
    (min_score : ℚ) (expected_scene : String) (items : List OcrItem)
    (keyboard_enabled : Bool) (rescan_after_key : Nat → Option String)
    (rescan_after_click : Option String) : OcrFlowResult :=
  if exception_keywords = [] then ⟨none, none, []⟩
  else
    let matched := find_keyword_items items exception_keywords min_score
    if matched = [] then ⟨none, none, []⟩
    else if expected_scene = in_game_scene ∧
        matched.any (fun item =>
          mailbox_markers.any (fun marker =>
            str_contains (strip_all_whitespace item.text) marker)) then
      ⟨some in_game_scene, none, []⟩
    else
      ocr_exception_actions clickable_keywords min_score items keyboard_enabled
        rescan_after_key rescan_after_click

/-- `_ocr_exception_flow` with the keyboard switch at its hardcoded
source value. -/
def ocr_exception_flow (exception_keywords clickable_keywords : List String)
    (min_score : ℚ) (expected_scene : String) (items : List OcrItem)
    (rescan_after_key : Nat → Option String)
    (rescan_after_click : Option String) : OcrFlowResult :=
  ocr_exception_flow_with_keyboard exception_keywords clickable_keywords
    min_score expected_scene items keyboard_actions_enabled rescan_after_key
    rescan_after_click

/-- The checkpoint dictionary as read back by `_load_state` in
`src/runner.py`: each field is `state.get(...)`, `none` when the key is
absent; `next_index` is `none` also when `int()` on the stored value
raises. -/
structure CheckpointState where
  accounts_hash : Option String
  status : Option String
  next_index : Option Int
  deriving DecidableEq, Repr

/-- `_resolve_start_index` from `src/runner.py`.  `state` is `none` when
`_load_state` returned the empty dict (file absent, unreadable, or not a
JSON object); `hash_accounts` abstracts the SHA-1 digest of the
`|`-joined usernames. -/
def resolve_start_index (hash_accounts : List String → String)
    (state : Option CheckpointState) (accounts : List String) : Int :=
  match state with
  | none => 0
  | some s =>
    if s.accounts_hash ≠ some (hash_accounts accounts) then 0
    else
      let total : Int := accounts.length
      let next_index := s.next_index.getD 1
      if s.status = some "completed" ∨ total < next_index then 0
      else if next_index ≤ 1 then 0
      else next_index - 1

/-- C2: with `allow_resize = false`, when the window fits within the
visible rectangle shrunk by `padding` on all sides, the recovered
rectangle keeps the window size and satisfies the containment invariant
`visible.left + padding ≤ left` and
`left + width ≤ visible.left + visible.width − padding` (and analogously
for top/height); in a dimension where the window is larger than the
padded visible area, the recovered origin equals the visible area's
origin (and no error is raised — the computation is total). -/
theorem recovered_rect_containment (w v : ScreenRect) (padding : Int)
    (hp : 0 ≤ padding) :
    (w.width ≤ v.width - 2 * padding → w.height ≤ v.height - 2 * padding →
      (compute_recovered_window_rect w v padding false).width = w.width ∧
      (compute_recovered_window_rect w v padding false).height = w.height ∧
      v.left + padding ≤ (compute_recovered_window_rect w v padding false).left ∧
      (compute_recovered_window_rect w v padding false).left + w.width ≤
        v.left + v.width - padding ∧
      v.top + padding ≤ (compute_recovered_window_rect w v padding false).top ∧
      (compute_recovered_window_rect w v padding false).top + w.height ≤
        v.top + v.height - padding) ∧
    (v.width - 2 * padding < w.width →
      (compute_recovered_window_rect w v padding false).left = v.left) ∧
    (v.height - 2 * padding < w.height →
      (compute_recovered_window_rect w v padding false).top = v.top) := by
  obtain ⟨wl, wt, ww, wh⟩ := w
  obtain ⟨vl, vt, vw, vh⟩ := v
  simp only [compute_recovered_window_rect, Bool.false_eq_true, if_false]
  refine ⟨fun h1 h2 => ?_, fun h => ?_, fun h => ?_⟩ <;> split_ifs <;>
    simp_all <;> omega

/-- Witness for C2 at spec example scenario 1: window `(-300,-200,1000,800)`
against visible `(0,0,1920,1080)` with padding `24`. -/
theorem recovered_rect_containment_witness :
    (compute_recovered_window_rect ⟨-300, -200, 1000, 800⟩
      ⟨0, 0, 1920, 1080⟩ 24 false).width = 1000 ∧
    (ScreenRect.mk 0 0 1920 1080).left + 24 ≤
      (compute_recovered_window_rect ⟨-300, -200, 1000, 800⟩
        ⟨0, 0, 1920, 1080⟩ 24 false).left :=
  have h := (recovered_rect_containment ⟨-300, -200, 1000, 800⟩
    ⟨0, 0, 1920, 1080⟩ 24 (by decide)).1 (by decide) (by decide)
  ⟨h.1, h.2.2.1⟩

/-- C5: `compute_visible_ratio` is the area of the intersection divided by
the area of the window, lies in `[0, 1]` for positive window area, and on
spec example scenario 3 — window `(-200,0,1000,800)` against visible
`(0,0,1920,1080)` — equals `4/5`. -/
theorem visible_ratio_spec (w v : ScreenRect) (hw : 0 < w.width)
    (hh : 0 < w.height) :
    0 ≤ compute_visible_ratio w v ∧ compute_visible_ratio w v ≤ 1 ∧
    compute_visible_ratio w v =
      (((intersect_rect w v).width * (intersect_rect w v).height : Int) : ℚ) /
        ((w.width * w.height : Int) : ℚ) ∧
    compute_visible_ratio ⟨-200, 0, 1000, 800⟩ ⟨0, 0, 1920, 1080⟩ = 4 / 5 := by
  obtain ⟨wl, wt, ww, wh⟩ := w
  obtain ⟨vl, vt, vw, vh⟩ := v
  simp only at hw hh
  have hiw0 : (0 : Int) ≤ max 0 (min (wl + ww) (vl + vw) - max wl vl) :=
    le_max_left 0 _
  have hih0 : (0 : Int) ≤ max 0 (min (wt + wh) (vt + vh) - max wt vt) :=
    le_max_left 0 _
  have hiw1 : max 0 (min (wl + ww) (vl + vw) - max wl vl) ≤ ww := by omega
  have hih1 : max 0 (min (wt + wh) (vt + vh) - max wt vt) ≤ wh := by omega
  refine ⟨?_, ?_, rfl, by norm_num [compute_visible_ratio, intersect_rect]⟩
  · simp only [compute_visible_ratio, intersect_rect]
    apply div_nonneg
    · exact_mod_cast mul_nonneg hiw0 hih0
    · exact_mod_cast mul_nonneg (le_of_lt hw) (le_of_lt hh)
  · simp only [compute_visible_ratio, intersect_rect]
    rw [div_le_one (by exact_mod_cast mul_pos hw hh)]
    exact_mod_cast mul_le_mul hiw1 hih1 hih0 (le_of_lt hw)

/-- Witness for C5 at spec example scenario 3. -/
theorem visible_ratio_spec_witness :
    (0 : Int) < 1000 ∧
    compute_visible_ratio ⟨-200, 0, 1000, 800⟩ ⟨0, 0, 1920, 1080⟩ = 4 / 5 :=
  ⟨by decide,
    (visible_ratio_spec ⟨-200, 0, 1000, 800⟩ ⟨0, 0, 1920, 1080⟩
      (by decide) (by decide)).2.2.2⟩

/-- Propositional characterization of `is_point_clickable`. -/
theorem is_point_clickable_true_iff (x y l t wd ht g : Int) :
    is_point_clickable (x, y) ⟨l, t, wd, ht⟩ g = true ↔
    ((l ≤ x ∧ x < l + wd ∧ t ≤ y ∧ y < t + ht) ∧
     (0 < g → g * 2 < wd → g * 2 < ht →
       l + g ≤ x ∧ x < l + wd - g ∧ t + g ≤ y ∧ y < t + ht - g)) := by
  simp only [is_point_clickable, is_point_in_rect]
  split_ifs with h1 h2 h3 <;>
    simp only [decide_eq_true_eq, not_and, not_lt, false_iff, true_iff,
      iff_true, iff_false, not_or] at * <;> omega

/-- Propositional characterization of `is_point_in_rect`. -/
theorem is_point_in_rect_true_iff (x y l t wd ht : Int) :
    is_point_in_rect (x, y) ⟨l, t, wd, ht⟩ = true ↔
    (l ≤ x ∧ x < l + wd ∧ t ≤ y ∧ y < t + ht) := by
  simp [is_point_in_rect]

/-- C7: with `guard_padding > 0`, if the visible rect's width or height is
≤ `2 × guard_padding` the padding is ignored (clickable ⇔ inside the raw
rect); if both dimensions exceed `2 × guard_padding`, a point is
clickable ⇔ it lies inside the rect shrunk by `guard_padding` on every
side. -/
theorem guard_padding_clickable (p : Point) (r : ScreenRect) (g : Int)
    (hg : 0 < g) :
    ((r.width ≤ 2 * g ∨ r.height ≤ 2 * g) →
      is_point_clickable p r g = is_point_in_rect p r) ∧
    (2 * g < r.width → 2 * g < r.height →
      is_point_clickable p r g =
        is_point_in_rect p
          ⟨r.left + g, r.top + g, r.width - 2 * g, r.height - 2 * g⟩) := by
  obtain ⟨x, y⟩ := p
  obtain ⟨l, t, wd, ht⟩ := r
  dsimp only
  constructor
  · intro hsmall
    rw [Bool.eq_iff_iff, is_point_clickable_true_iff, is_point_in_rect_true_iff]
    omega
  · intro h1 h2
    rw [Bool.eq_iff_iff, is_point_clickable_true_iff, is_point_in_rect_true_iff]
    omega

/-- Witness for C7: guard `10` on the rect `(0,0,100,15)` (height ≤ 2×10,
so padding is ignored) at the point `(50, 14)`. -/
theorem guard_padding_clickable_witness :
    (0 : Int) < 10 ∧
    is_point_clickable (50, 14) ⟨0, 0, 100, 15⟩ 10 =
      is_point_in_rect (50, 14) ⟨0, 0, 100, 15⟩ :=
  ⟨by decide,
    (guard_padding_clickable (50, 14) ⟨0, 0, 100, 15⟩ 10 (by decide)).1
      (by decide)⟩

/-- C8: a missing/unreadable checkpoint or one whose `accounts_hash`
differs from the hash of the current account list starts the run at index
0; a matching hash with status ≠ `completed` and `1 < next_index ≤ total`
resumes at start index `next_index − 1`. -/
theorem checkpoint_resume_rules (hash_accounts : List String → String)
    (accounts : List String) :
    resolve_start_index hash_accounts none accounts = 0 ∧
    (∀ s : CheckpointState, s.accounts_hash ≠ some (hash_accounts accounts) →
      resolve_start_index hash_accounts (some s) accounts = 0) ∧
    (∀ (s : CheckpointState) (n : Int),
      s.accounts_hash = some (hash_accounts accounts) →
      s.status ≠ some "completed" → s.next_index = some n →
      1 < n → n ≤ (accounts.length : Int) →
      resolve_start_index hash_accounts (some s) accounts = n - 1) := by
  refine ⟨rfl, fun s h => ?_, fun s n h1 h2 h3 h4 h5 => ?_⟩
  · simp [resolve_start_index, h]
  · simp only [resolve_start_index, h1, h3, ne_eq, not_true_eq_false,
      if_false, Option.getD_some]
    split_ifs with hA hB
    · rcases hA with hA | hA
      · exact absurd hA h2
      · omega
    · omega
    · rfl

/-- Witness for C8: a checkpoint with matching hash, status `running`,
`next_index = 2` over 3 accounts resumes at start index 1. -/
theorem checkpoint_resume_rules_witness :
    (⟨some "h", some "running", some 2⟩ : CheckpointState).accounts_hash =
      some ((fun (_ : List String) => "h") ["a", "b", "c"]) ∧
    resolve_start_index (fun _ => "h")
      (some ⟨some "h", some "running", some 2⟩) ["a", "b", "c"] = 2 - 1 :=
  ⟨by decide,
    (checkpoint_resume_rules (fun _ => "h") ["a", "b", "c"]).2.2
      ⟨some "h", some "running", some 2⟩ 2 (by decide) (by decide)
      (by decide) (by decide) (by decide)⟩

/-- C10: for every raw (possibly malformed/empty) configuration list, the
candidate-offset list and the backoff list built by the click strategy
are non-empty, so any round that reaches the offset loop evaluates at
least one candidate point (records at least one attempt). -/
theorem offsets_backoff_nonempty :
    ∀ (rawO : List RawOffset) (rawB : List RawBackoff),
      build_candidate_offsets rawO ≠ [] ∧
      build_backoff_seconds rawB ≠ [] ∧
      ∀ (env : ClickEnv) (round : Nat) (guard : Int) (vf vp : Bool)
        (base : Point) (rect : ScreenRect),
        (offsets_attempt_loop env round guard vf vp base rect
          (build_candidate_offsets rawO) 0).1 ≠ [] := by
  intro rawO rawB
  have h1 : build_candidate_offsets rawO ≠ [] := by
    simp only [build_candidate_offsets]
    split_ifs with h
    · simp
    · exact h
  refine ⟨h1, ?_, ?_⟩
  · simp only [build_backoff_seconds]
    split_ifs with h
    · simp
    · exact h
  · intro env round guard vf vp base rect
    rcases ho : build_candidate_offsets rawO with _ | ⟨⟨dx, dy⟩, rest⟩
    · exact absurd ho h1
    · simp only [offsets_attempt_loop]
      split_ifs <;>
        rcases env.injectResult round 0 with _ | d <;>
        rcases env.verifyResult round 0 with _ | _ | d <;>
        simp

theorem find_scene_index_lt (checkers : List SceneChecker) (name : String)
    (k : Nat) (hk : find_scene_index checkers name = some k) :
    k < checkers.length := by
  induction checkers generalizing k with
  | nil => exact Option.noConfusion hk
  | cons c rest ih =>
    simp only [find_scene_index] at hk
    split_ifs at hk with h
    · simp only [Option.some.injEq] at hk
      simp only [List.length_cons]
      omega
    · rcases ho : find_scene_index rest name with _ | k'
      · rw [ho] at hk; exact Option.noConfusion hk
      · rw [ho] at hk
        simp only [Option.map] at hk
        simp only [Option.some.injEq] at hk
        have := ih k' ho
        simp only [List.length_cons]
        omega

theorem scan_trace_cons_skip (checkers : List SceneChecker)
    (i : Nat) (rest : List Nat) (hg : checkers[i]? = none) :
    scan_scene_checkers_trace checkers (i :: rest) =
      scan_scene_checkers_trace checkers rest := by
  simp [scan_scene_checkers_trace, hg]

theorem scan_trace_cons_matched (checkers : List SceneChecker)
    (i : Nat) (rest : List Nat) (c : SceneChecker)
    (hg : checkers[i]? = some c) (hc : c.check = CheckOutcome.matched) :
    scan_scene_checkers_trace checkers (i :: rest) = ([i], some c.name) := by
  simp [scan_scene_checkers_trace, hg, hc]

theorem scan_trace_cons_continue (checkers : List SceneChecker)
    (i : Nat) (rest : List Nat) (c : SceneChecker)
    (hg : checkers[i]? = some c) (hc : c.check ≠ CheckOutcome.matched) :
    scan_scene_checkers_trace checkers (i :: rest) =
      ((scan_scene_checkers_trace checkers rest).1.cons i,
       (scan_scene_checkers_trace checkers rest).2) := by
  simp only [scan_scene_checkers_trace, hg]

theorem scan_trace_result_mem (checkers : List SceneChecker)
    (l : List Nat) (s : String)
    (h : (scan_scene_checkers_trace checkers l).2 = some s) :
    ∃ c ∈ checkers, c.name = s ∧ c.check = CheckOutcome.matched := by
  induction l with
  | nil => simp [scan_scene_checkers_trace] at h
  | cons i rest ih =>
    rcases hg : checkers[i]? with _ | c
    · rw [scan_trace_cons_skip checkers i rest hg] at h
      exact ih h
    · by_cases hc : c.check = CheckOutcome.matched
      · rw [scan_trace_cons_matched checkers i rest c hg hc] at h
        simp only [Option.some.injEq] at h
        exact ⟨c, List.getElem?_mem hg, h, hc⟩
      · rw [scan_trace_cons_continue checkers i rest c hg hc] at h
        exact ih h

theorem scan_trace_none_full (checkers : List SceneChecker) (l : List Nat)
    (hvalid : ∀ i ∈ l, i < checkers.length)
    (h : (scan_scene_checkers_trace checkers l).2 = none) :
    (scan_scene_checkers_trace checkers l).1 = l := by
  induction l with
  | nil => simp [scan_scene_checkers_trace]
  | cons i rest ih =>
    have hi : i < checkers.length := hvalid i (List.mem_cons_self i rest)
    have hrest : ∀ j ∈ rest, j < checkers.length :=
      fun j hj => hvalid j (List.mem_cons_of_mem i hj)
    obtain ⟨c, hg⟩ : ∃ c, checkers[i]? = some c :=
      ⟨checkers[i], List.getElem?_eq_getElem hi⟩
    by_cases hc : c.check = CheckOutcome.matched
    · rw [scan_trace_cons_matched checkers i rest c hg hc] at h
      exact Option.noConfusion h
    · rw [scan_trace_cons_continue checkers i rest c hg hc] at h ⊢
      simp only [List.cons.injEq, true_and]
      exact ih hrest h

theorem scan_trace_append_some (checkers : List SceneChecker)
    (l1 l2 : List Nat) (s : String)
    (h : (scan_scene_checkers_trace checkers l1).2 = some s) :
    scan_scene_checkers_trace checkers (l1 ++ l2) =
      scan_scene_checkers_trace checkers l1 := by
  induction l1 with
  | nil => simp [scan_scene_checkers_trace] at h
  | cons i rest ih =>
    rw [List.cons_append]
    rcases hg : checkers[i]? with _ | c
    · rw [scan_trace_cons_skip checkers i rest hg] at h
      rw [scan_trace_cons_skip checkers i (rest ++ l2) hg,
        scan_trace_cons_skip checkers i rest hg]
      exact ih h
    · by_cases hc : c.check = CheckOutcome.matched
      · rw [scan_trace_cons_matched checkers i (rest ++ l2) c hg hc,
          scan_trace_cons_matched checkers i rest c hg hc]
      · rw [scan_trace_cons_continue checkers i rest c hg hc] at h
        rw [scan_trace_cons_continue checkers i (rest ++ l2) c hg hc,
          scan_trace_cons_continue checkers i rest c hg hc, ih h]

theorem scan_trace_append_none (checkers : List SceneChecker)
    (l1 l2 : List Nat)
    (h : (scan_scene_checkers_trace checkers l1).2 = none) :
    scan_scene_checkers_trace checkers (l1 ++ l2) =
      ((scan_scene_checkers_trace checkers l1).1 ++
        (scan_scene_checkers_trace checkers l2).1,
       (scan_scene_checkers_trace checkers l2).2) := by
  induction l1 with
  | nil => simp [scan_scene_checkers_trace]
  | cons i rest ih =>
    rw [List.cons_append]
    rcases hg : checkers[i]? with _ | c
    · rw [scan_trace_cons_skip checkers i rest hg] at h
      rw [scan_trace_cons_skip checkers i (rest ++ l2) hg,
        scan_trace_cons_skip checkers i rest hg]
      exact ih h
    · by_cases hc : c.check = CheckOutcome.matched
      · rw [scan_trace_cons_matched checkers i rest c hg hc] at h
        exact Option.noConfusion h
      · rw [scan_trace_cons_continue checkers i rest c hg hc] at h
        rw [scan_trace_cons_continue checkers i (rest ++ l2) c hg hc,
          scan_trace_cons_continue checkers i rest c hg hc, ih h]
        simp

theorem template_loop_all_none (checkers : List SceneChecker)
    (fwd bwd : List Nat) (R : Nat)
    (hf : (scan_scene_checkers_trace checkers fwd).2 = none)
    (hb : (scan_scene_checkers_trace checkers bwd).2 = none)
    (hft : (scan_scene_checkers_trace checkers fwd).1 = fwd)
    (hbt : (scan_scene_checkers_trace checkers bwd).1 = bwd) :
    template_rounds_loop checkers fwd bwd R =
      ((List.replicate R (fwd ++ bwd)).flatten, none) := by
  induction R with
  | zero => simp [template_rounds_loop]
  | succ n ih =>
    simp only [template_rounds_loop, hf, hb, hft, hbt, ih,
      scene_truthy, if_false, List.replicate_succ, List.flatten_cons]
    simp [List.append_assoc]

theorem template_loop_fwd_found (checkers : List SceneChecker)
    (fwd bwd : List Nat) (n : Nat)
    (h : scene_truthy (scan_scene_checkers_trace checkers fwd).2 = true) :
    template_rounds_loop checkers fwd bwd (n + 1) =
      scan_scene_checkers_trace checkers fwd := by
  simp [template_rounds_loop, h]

theorem template_loop_bwd_found (checkers : List SceneChecker)
    (fwd bwd : List Nat) (n : Nat)
    (hf : scene_truthy (scan_scene_checkers_trace checkers fwd).2 = false)
    (hb : scene_truthy (scan_scene_checkers_trace checkers bwd).2 = true) :
    template_rounds_loop checkers fwd bwd (n + 1) =
      ((scan_scene_checkers_trace checkers fwd).1 ++
        (scan_scene_checkers_trace checkers bwd).1,
       (scan_scene_checkers_trace checkers bwd).2) := by
  simp [template_rounds_loop, hf, hb]

theorem scene_truthy_of_scan (checkers : List SceneChecker)
    (hnames : ∀ c ∈ checkers, c.name ≠ "") (l : List Nat) (s : String)
    (h : (scan_scene_checkers_trace checkers l).2 = some s) :
    scene_truthy (scan_scene_checkers_trace checkers l).2 = true := by
  obtain ⟨c, hc, hcs, _⟩ := scan_trace_result_mem checkers l s h
  rw [h]
  have hne : s ≠ "" := hcs ▸ hnames c hc
  simp [scene_truthy, String.isEmpty_iff, hne]

/-- C4: when the expected scene sits at index `k` of an `n`-checker list
(and checker names are non-empty, as they are in the source), one
invocation of the template-drift scan with `rounds ≥ 1` returns exactly
the first match of scanning the forward index list `k, k+1, …, n−1`
followed by the backward index list `k, k−1, …, 0`; when no checker
matches, every round evaluates the full forward-then-backward pass (so
the two-direction pass is repeated exactly `rounds` times), and the
expected index `k` occurs exactly once in each scan (twice per pass, not
merged). -/
theorem scene_scan_symmetry (checkers : List SceneChecker)
    (expected : String) (k : Nat)
    (hk : find_scene_index checkers expected = some k)
    (hnames : ∀ c ∈ checkers, c.name ≠ "")
    (rounds : Int) (hr : 1 ≤ rounds) :
    (template_exception_flow expected checkers rounds =
      scan_scene_checkers checkers
        (List.range' k (checkers.length - k) ++ (List.range (k + 1)).reverse)) ∧
    (scan_scene_checkers checkers
        (List.range' k (checkers.length - k) ++ (List.range (k + 1)).reverse)
          = none →
      (template_exception_flow_trace expected checkers rounds).1 =
        (List.replicate rounds.toNat
          (List.range' k (checkers.length - k) ++
            (List.range (k + 1)).reverse)).flatten) ∧
    List.count k
      (List.range' k (checkers.length - k) ++ (List.range (k + 1)).reverse)
      = 2 := by
  have hklen := find_scene_index_lt checkers expected k hk
  have hne : checkers ≠ [] := by
    intro h; rw [h] at hklen; simp at hklen
  have hr0 : ¬ rounds ≤ 0 := by omega
  have hRsucc : rounds.toNat = (rounds.toNat - 1) + 1 := by omega
  have hvf : ∀ i ∈ List.range' k (checkers.length - k), i < checkers.length := by
    intro i hi
    rw [List.mem_range'_1] at hi
    omega
  have hvb : ∀ i ∈ (List.range (k + 1)).reverse, i < checkers.length := by
    intro i hi
    rw [List.mem_reverse, List.mem_range] at hi
    omega
  have hcount :
      List.count k (List.range' k (checkers.length - k) ++
        (List.range (k + 1)).reverse) = 2 := by
    rw [List.count_append, List.count_reverse]
    have c1 : List.count k (List.range' k (checkers.length - k)) = 1 := by
      apply List.count_eq_one_of_mem (List.nodup_range' _ _)
      rw [List.mem_range'_1]
      omega
    have c2 : List.count k (List.range (k + 1)) = 1 := by
      apply List.count_eq_one_of_mem (List.nodup_range _)
      rw [List.mem_range]
      omega
    omega
  simp only [template_exception_flow, template_exception_flow_trace,
    scan_scene_checkers, if_neg hne, if_neg hr0, hk, Option.getD_some]
  rcases scf : (scan_scene_checkers_trace checkers
      (List.range' k (checkers.length - k))).2 with _ | s
  · rcases scb : (scan_scene_checkers_trace checkers
        ((List.range (k + 1)).reverse)).2 with _ | s
    · have hft := scan_trace_none_full checkers _ hvf scf
      have hbt := scan_trace_none_full checkers _ hvb scb
      rw [template_loop_all_none checkers _ _ _ scf scb hft hbt]
      rw [scan_trace_append_none checkers _ _ scf]
      exact ⟨scb.symm, fun _ => rfl, hcount⟩
    · have hbtruthy := scene_truthy_of_scan checkers hnames _ s scb
      have hftruthy : scene_truthy (scan_scene_checkers_trace checkers
          (List.range' k (checkers.length - k))).2 = false := by
        rw [scf]; rfl
      rw [hRsucc, template_loop_bwd_found checkers _ _ _ hftruthy hbtruthy]
      rw [scan_trace_append_none checkers _ _ scf]
      refine ⟨rfl, fun hcontra => ?_, hcount⟩
      rw [scb] at hcontra
      simp at hcontra
  · have hftruthy := scene_truthy_of_scan checkers hnames _ s scf
    rw [hRsucc, template_loop_fwd_found checkers _ _ _ hftruthy]
    rw [scan_trace_append_some checkers _ _ s scf]
    refine ⟨rfl, fun hcontra => ?_, hcount⟩
    rw [scf] at hcontra
    exact Option.noConfusion hcontra

/-- Witness for C4: three checkers with the expected scene at index 1 and
the matching checker exactly there, one round. -/
theorem scene_scan_symmetry_witness :
    (1 : Int) ≤ 1 ∧
    template_exception_flow "b"
      [⟨"a", CheckOutcome.unmatched⟩, ⟨"b", CheckOutcome.matched⟩,
        ⟨"c", CheckOutcome.unmatched⟩] 1 =
      scan_scene_checkers
        [⟨"a", CheckOutcome.unmatched⟩, ⟨"b", CheckOutcome.matched⟩,
          ⟨"c", CheckOutcome.unmatched⟩]
        (List.range' 1
          ([(⟨"a", CheckOutcome.unmatched⟩ : SceneChecker),
            ⟨"b", CheckOutcome.matched⟩,
            ⟨"c", CheckOutcome.unmatched⟩].length - 1) ++
          (List.range (1 + 1)).reverse) :=
  ⟨by decide,
    (scene_scan_symmetry
      [⟨"a", CheckOutcome.unmatched⟩, ⟨"b", CheckOutcome.matched⟩,
        ⟨"c", CheckOutcome.unmatched⟩] "b" 1 (by decide)
      (by decide) 1 (by decide)).1⟩

/-- C9: blind key-press recovery defaults off — the switch in
`_ocr_exception_flow` is hardcoded `False`, and with it the exception
scan never performs a key press, for every configuration, expected scene,
recognized item list and rescan outcome. -/
theorem keyboard_recovery_default_off :
    keyboard_actions_enabled = false ∧
    ∀ (ek ck : List String) (ms : ℚ) (expected : String)
      (items : List OcrItem) (rk : Nat → Option String) (rc : Option String),
      (ocr_exception_flow ek ck ms expected items rk rc).key_presses = [] := by
  refine ⟨rfl, fun ek ck ms expected items rk rc => ?_⟩
  simp only [ocr_exception_flow, ocr_exception_flow_with_keyboard,
    ocr_exception_actions, keyboard_actions_enabled, Bool.false_eq_true,
    if_false]
  split_ifs <;> (try rfl) <;>
    rcases (sort_desc ocr_sort_key (find_keyword_items items ck ms)).head?
      with _ | target <;> (try rfl) <;> dsimp only <;>
    rcases target.bbox with _ | b <;> rfl

theorem mem_insert_desc (key : OcrItem → ℚ) (x : OcrItem)
    (l : List OcrItem) (a : OcrItem) :
    a ∈ insert_desc key x l ↔ a = x ∨ a ∈ l := by
  induction l with
  | nil => simp [insert_desc]
  | cons y ys ih =>
    simp only [insert_desc]
    split_ifs with hle
    · simp [List.mem_cons]
    · simp only [List.mem_cons, ih]
      tauto

theorem mem_sort_desc (key : OcrItem → ℚ) (l : List OcrItem) (a : OcrItem) :
    a ∈ sort_desc key l ↔ a ∈ l := by
  induction l with
  | nil => simp [sort_desc]
  | cons x xs ih => simp [sort_desc, mem_insert_desc, ih]

theorem sort_desc_ne_nil (key : OcrItem → ℚ) (l : List OcrItem)
    (h : l ≠ []) : sort_desc key l ≠ [] := by
  rcases l with _ | ⟨x, xs⟩
  · exact absurd rfl h
  · intro hs
    have hx : x ∈ sort_desc key (x :: xs) :=
      (mem_sort_desc key (x :: xs) x).2 (List.mem_cons_self x xs)
    rw [hs] at hx
    exact List.not_mem_nil x hx

theorem insert_desc_pairwise (key : OcrItem → ℚ) (x : OcrItem)
    (l : List OcrItem)
    (h : l.Pairwise (fun a b => key b ≤ key a)) :
    (insert_desc key x l).Pairwise (fun a b => key b ≤ key a) := by
  induction l with
  | nil => simp [insert_desc]
  | cons y ys ih =>
    obtain ⟨hy, hys⟩ := List.pairwise_cons.1 h
    simp only [insert_desc]
    split_ifs with hle
    · refine List.pairwise_cons.2 ⟨?_, h⟩
      intro z hz
      rcases List.mem_cons.1 hz with rfl | hz
      · exact hle
      · exact le_trans (hy z hz) hle
    · refine List.pairwise_cons.2 ⟨?_, ih hys⟩
      intro z hz
      rcases (mem_insert_desc key x ys z).1 hz with rfl | hz
      · exact le_of_lt (not_le.1 hle)
      · exact hy z hz

theorem sort_desc_pairwise (key : OcrItem → ℚ) (l : List OcrItem) :
    (sort_desc key l).Pairwise (fun a b => key b ≤ key a) := by
  induction l with
  | nil => simp [sort_desc]
  | cons x xs ih => exact insert_desc_pairwise key x _ ih

theorem sort_desc_head_max (key : OcrItem → ℚ) (l : List OcrItem)
    (hne : l ≠ []) :
    ∃ t, (sort_desc key l).head? = some t ∧ t ∈ l ∧
      ∀ a ∈ l, key a ≤ key t := by
  rcases he : sort_desc key l with _ | ⟨t, rest⟩
  · exact absurd he (sort_desc_ne_nil key l hne)
  · refine ⟨t, by rfl, ?_, ?_⟩
    · exact (mem_sort_desc key l t).1 (he ▸ List.mem_cons_self t rest)
    · intro a ha
      have hmem : a ∈ t :: rest := he ▸ (mem_sort_desc key l a).2 ha
      rcases List.mem_cons.1 hmem with rfl | hmem
      · exact le_refl _
      · have hp := sort_desc_pairwise key l
        rw [he] at hp
        exact (List.pairwise_cons.1 hp).1 a hmem

/-- C6: (i) when the expected scene is the terminal in-game scene and
some exception-matched item's whitespace-stripped text contains a mailbox
marker, the OCR exception scan reports the expected in-game scene and
performs no click (and no key press); (ii) otherwise, when the exception
keywords matched and the clickable keyword set yields matches (all
carrying a bounding box), the flow clicks the bounding-box center of a
maximal-confidence clickable item (confidence ordering
`item.score or 1.0`) and returns the result of the single re-run of the
template-drift scan. -/
theorem ocr_exception_scan_behavior (ek ck : List String) (ms : ℚ)
    (expected : String) (items : List OcrItem)
    (rk : Nat → Option String) (rc : Option String) :
    (expected = in_game_scene →
      (find_keyword_items items ek ms).any (fun item =>
        mailbox_markers.any (fun marker =>
          str_contains (strip_all_whitespace item.text) marker)) = true →
      ek ≠ [] →
      ocr_exception_flow ek ck ms expected items rk rc =
        ⟨some in_game_scene, none, []⟩) ∧
    (ek ≠ [] → find_keyword_items items ek ms ≠ [] →
      ¬(expected = in_game_scene ∧
        (find_keyword_items items ek ms).any (fun item =>
          mailbox_markers.any (fun marker =>
            str_contains (strip_all_whitespace item.text) marker)) = true) →
      ck ≠ [] → find_keyword_items items ck ms ≠ [] →
      (∀ it ∈ find_keyword_items items ck ms, it.bbox.isSome = true) →
      ∃ target ∈ find_keyword_items items ck ms,
        (∀ it ∈ find_keyword_items items ck ms,
          ocr_sort_key it ≤ ocr_sort_key target) ∧
        ∃ b, target.bbox = some b ∧
          (ocr_exception_flow ek ck ms expected items rk rc).clicked_point =
            some (click_bbox_center b) ∧
          (ocr_exception_flow ek ck ms expected items rk rc).scene =
            (if scene_truthy rc then rc else none) ∧
          (ocr_exception_flow ek ck ms expected items rk rc).key_presses
            = []) := by
  constructor
  · intro h1 h2 h3
    have hm : find_keyword_items items ek ms ≠ [] := by
      intro h
      rw [h] at h2
      simp at h2
    simp only [ocr_exception_flow, ocr_exception_flow_with_keyboard,
      if_neg h3, if_neg hm]
    rw [if_pos ⟨h1, h2⟩]
  · intro h1 h2 h3 h4 h5 hbox
    obtain ⟨t, hhead, hmem, hmax⟩ :=
      sort_desc_head_max ocr_sort_key (find_keyword_items items ck ms) h5
    obtain ⟨b, hb⟩ := Option.isSome_iff_exists.1 (hbox t hmem)
    refine ⟨t, hmem, hmax, b, hb, ?_⟩
    simp only [ocr_exception_flow, ocr_exception_flow_with_keyboard,
      if_neg h1, if_neg h2, if_neg h3, ocr_exception_actions,
      keyboard_actions_enabled, Bool.false_eq_true, if_false,
      if_pos (And.intro h5 h4), hhead, hb]
    exact ⟨trivial, trivial, trivial⟩

/-- Witness for C6: a two-item OCR result where `异常提示` matches the
exception keyword and `确认` is the clickable hit (with a bounding box);
the flow clicks its center and returns the rescan result. -/
theorem ocr_exception_scan_behavior_witness :
    (["异常"] : List String) ≠ [] ∧
    (∃ target ∈ find_keyword_items
        [⟨"异常提示", some 1, some (0, 0, 10, 10)⟩,
         ⟨"确认", none, some (100, 100, 120, 120)⟩] ["确认"] 0,
      (∀ it ∈ find_keyword_items
          [⟨"异常提示", some 1, some (0, 0, 10, 10)⟩,
           ⟨"确认", none, some (100, 100, 120, 120)⟩] ["确认"] 0,
        ocr_sort_key it ≤ ocr_sort_key target) ∧
      ∃ b, target.bbox = some b ∧
        (ocr_exception_flow ["异常"] ["确认"] 0 "频道选择界面"
          [⟨"异常提示", some 1, some (0, 0, 10, 10)⟩,
           ⟨"确认", none, some (100, 100, 120, 120)⟩]
          (fun _ => none) (some "频道选择界面")).clicked_point =
          some (click_bbox_center b) ∧
        (ocr_exception_flow ["异常"] ["确认"] 0 "频道选择界面"
          [⟨"异常提示", some 1, some (0, 0, 10, 10)⟩,
           ⟨"确认", none, some (100, 100, 120, 120)⟩]
          (fun _ => none) (some "频道选择界面")).scene =
          (if scene_truthy (some "频道选择界面") then some "频道选择界面"
           else none) ∧
        (ocr_exception_flow ["异常"] ["确认"] 0 "频道选择界面"
          [⟨"异常提示", some 1, some (0, 0, 10, 10)⟩,
           ⟨"确认", none, some (100, 100, 120, 120)⟩]
          (fun _ => none) (some "频道选择界面")).key_presses = []) :=
  ⟨by decide,
    (ocr_exception_scan_behavior ["异常"] ["确认"] 0 "频道选择界面"
      [⟨"异常提示", some 1, some (0, 0, 10, 10)⟩,
       ⟨"确认", none, some (100, 100, 120, 120)⟩]
      (fun _ => none) (some "频道选择界面")).2
      (by decide) (by decide) (by decide) (by decide) (by decide)
      (by decide)⟩

theorem offsets_loop_all_fail (env : ClickEnv) (round : Nat) (guard : Int)
    (vf : Bool) (base : Point) (rect : ScreenRect)
    (hverify : ∀ j, env.verifyResult round j ≠ VerifyOutcome.pass) :
    ∀ (offs : List (Int × Int)) (idx : Nat),
      (offsets_attempt_loop env round guard vf true base rect offs idx).2
        = none ∧
      (offsets_attempt_loop env round guard vf true base rect offs idx).1.map
        (fun a => (a.round_index, a.offset_index)) =
        (List.range' idx offs.length).map (fun (j : Nat) => (round, (j : Int))) := by
  intro offs
  induction offs with
  | nil => intro idx; exact ⟨rfl, rfl⟩
  | cons o rest ih =>
    intro idx
    obtain ⟨dx, dy⟩ := o
    have hv := hverify idx
    have ihs := ih (idx + 1)
    rcases hi : env.injectResult round idx with _ | d <;>
      rcases hvr : env.verifyResult round idx with _ | _ | d' <;>
      (try exact absurd hvr hv) <;>
      simp only [offsets_attempt_loop, hi, hvr, eq_self_iff_true, not_true,
        if_false] <;>
      split_ifs <;>
      constructor <;>
      simp only [List.map_cons, List.length_cons, List.range'_succ, ihs.1,
        ihs.2]

theorem resolve_base_first_try (flow : FlowClickConfig) (env : ClickEnv)
    (round : Nat) (recover_enabled : Bool) (guard : Int) (p : Point)
    (hres : env.resolvePoint round 1 = Except.ok p)
    (hclick : is_point_clickable p (env.visibleRectAt round 1) guard = true) :
    resolve_base_point_with_recover flow env round recover_enabled guard =
      Except.ok (p, env.visibleRectAt round 1) := by
  unfold resolve_base_point_with_recover
  have hpos : (max 1 flow.window_auto_recover_max_attempts).toNat =
      ((max 1 flow.window_auto_recover_max_attempts).toNat - 1) + 1 := by
    have h1 : (1 : Int) ≤ max 1 flow.window_auto_recover_max_attempts :=
      le_max_left 1 _
    omega
  rw [hpos]
  simp only [resolve_base_loop, hres, hclick, if_pos]

theorem rounds_loop_all_fail (flow : FlowClickConfig) (env : ClickEnv)
    (recover_enabled : Bool) (offsets : List (Int × Int)) (guard : Int)
    (vfg : Bool) (pt : Nat → Point)
    (hact : ∀ r, env.activateOk r = true)
    (hres : ∀ r, env.resolvePoint r 1 = Except.ok (pt r))
    (hclick : ∀ r,
      is_point_clickable (pt r) (env.visibleRectAt r 1) guard = true)
    (hverify : ∀ r j, env.verifyResult r j ≠ VerifyOutcome.pass) :
    ∀ (fuel start : Nat),
      (rounds_loop flow env recover_enabled true offsets guard vfg
        start fuel).2 = none ∧
      (rounds_loop flow env recover_enabled true offsets guard vfg
        start fuel).1.map (fun a => (a.round_index, a.offset_index)) =
        ((List.range' start fuel).map (fun r =>
          (List.range offsets.length).map (fun (j : Nat) => (r, (j : Int))))).flatten
        := by
  intro fuel
  induction fuel with
  | zero => intro start; exact ⟨rfl, rfl⟩
  | succ n ih =>
    intro start
    have hofs := offsets_loop_all_fail env start guard vfg (pt start)
      (env.visibleRectAt start 1) (hverify start) offsets 0
    simp only [rounds_loop, hact start, not_true_eq_false, if_false,
      resolve_base_first_try flow env start recover_enabled guard (pt start)
        (hres start) (hclick start), hofs.1]
    have hr0 : (List.range' 0 offsets.length).map
        (fun (j : Nat) => (start, (j : Int))) =
        (List.range offsets.length).map (fun (j : Nat) => (start, (j : Int))) := by
      rw [List.range'_eq_map_range]
      simp
    constructor
    · exact (ih (start + 1)).1
    · simp only [List.map_append, hofs.2, (ih (start + 1)).2, hr0,
        List.range'_succ, List.map_cons, List.flatten_cons]

/-- C3: in a fully-failing strategy run (activation succeeds and the base
point resolves clickable every round, a verify callback is present and
never passes), the click result fails and its attempt records are exactly
`N × M` many — all `M` offsets of round 1 in priority order, then round
2, and so on (`N = max 1 click_max_attempts`, `M` the number of built
candidate offsets); with a configured fallback, at most one extra
fallback-triggered record is appended after those. -/
theorem click_exhaustion_order (flow : FlowClickConfig) (env : ClickEnv)
    (recover_enabled : Bool) (pt : Nat → Point)
    (hen : flow.click_strategy_enabled = true)
    (hact : ∀ r, env.activateOk r = true)
    (hres : ∀ r, env.resolvePoint r 1 = Except.ok (pt r))
    (hclick : ∀ r, is_point_clickable (pt r) (env.visibleRectAt r 1)
      (max 0 flow.click_point_guard_padding_px) = true)
    (hverify : ∀ r j, env.verifyResult r j ≠ VerifyOutcome.pass) :
    (click_point_with_strategy flow env recover_enabled true none).success
      = false ∧
    (click_point_with_strategy flow env recover_enabled true
        none).attempts.map (fun a => (a.round_index, a.offset_index)) =
      ((List.range' 1 (max 1 flow.click_max_attempts).toNat).map (fun r =>
        (List.range
          (build_candidate_offsets flow.click_candidates).length).map
          (fun (j : Nat) => (r, (j : Int))))).flatten ∧
    (click_point_with_strategy flow env recover_enabled true
        none).attempts.length =
      (max 1 flow.click_max_attempts).toNat *
        (build_candidate_offsets flow.click_candidates).length ∧
    ∀ fb : Option FallbackOutcome, ∃ extra : List ClickAttemptResult,
      (click_point_with_strategy flow env recover_enabled true fb).attempts =
        (click_point_with_strategy flow env recover_enabled true
          none).attempts ++ extra ∧
      extra.length ≤ 1 := by
  have hall := rounds_loop_all_fail flow env recover_enabled
    (build_candidate_offsets flow.click_candidates)
    (max 0 flow.click_point_guard_padding_px)
    flow.click_verify_foreground_enabled pt hact hres hclick hverify
    (max 1 flow.click_max_attempts).toNat 1
  simp only [click_point_with_strategy, hen, not_true, if_false, hall.1,
    ite_self]
  refine ⟨trivial, hall.2, ?_, ?_⟩
  · have hmaplen := congrArg List.length hall.2
    rw [List.length_map] at hmaplen
    rw [hmaplen, List.length_flatten, List.map_map]
    have hconst : (List.map
        (List.length ∘ fun r =>
          (List.range
            (build_candidate_offsets flow.click_candidates).length).map
            (fun (j : Nat) => (r, (j : Int))))
        (List.range' 1 (max 1 flow.click_max_attempts).toNat)) =
        List.replicate (max 1 flow.click_max_attempts).toNat
          (build_candidate_offsets flow.click_candidates).length := by
      rw [List.eq_replicate_iff]
      constructor
      · simp
      · intro b hb
        simp only [List.mem_map] at hb
        obtain ⟨r, _, hr⟩ := hb
        simp [← hr]
    rw [hconst, List.sum_replicate, smul_eq_mul]
  · intro fb
    rcases henb : flow.click_ocr_fallback_enabled
    · exact ⟨[], by simp, by simp⟩
    · rcases fb with _ | fb
      · exact ⟨[], by simp, by simp⟩
      · rcases fb with _ | _ | d
        · exact ⟨[⟨true, (0, 0), (max 1 flow.click_max_attempts).toNat, -2,
            .ocr_fallback_success⟩], by simp, by simp⟩
        · exact ⟨[], by simp, by simp⟩
        · exact ⟨[⟨false, (0, 0), (max 1 flow.click_max_attempts).toNat, -2,
            .ocr_fallback_error d⟩], by simp, by simp⟩

/-- Witness for C3: 2 rounds × 2 offsets with verify always failing —
4 attempts in round-major, offset-minor order. -/
theorem click_exhaustion_order_witness :
    (click_point_with_strategy
      ⟨true, 2, 0, true, true, [RawOffset.pair 0 0, RawOffset.pair 1 0],
        [RawBackoff.ms 100], 1⟩
      ⟨fun _ => true, fun _ _ => Except.ok (5, 5),
        fun _ _ => ⟨0, 0, 100, 100⟩, fun _ _ => none, fun _ _ => true,
        fun _ _ => VerifyOutcome.fail⟩
      true true none).success = false ∧
    (click_point_with_strategy
      ⟨true, 2, 0, true, true, [RawOffset.pair 0 0, RawOffset.pair 1 0],
        [RawBackoff.ms 100], 1⟩
      ⟨fun _ => true, fun _ _ => Except.ok (5, 5),
        fun _ _ => ⟨0, 0, 100, 100⟩, fun _ _ => none, fun _ _ => true,
        fun _ _ => VerifyOutcome.fail⟩
      true true none).attempts.map
        (fun a => (a.round_index, a.offset_index)) =
      ([(1, 0), (1, 1), (2, 0), (2, 1)] : List (Nat × Int)) :=
  have h := click_exhaustion_order
    ⟨true, 2, 0, true, true, [RawOffset.pair 0 0, RawOffset.pair 1 0],
      [RawBackoff.ms 100], 1⟩
    ⟨fun _ => true, fun _ _ => Except.ok (5, 5),
      fun _ _ => ⟨0, 0, 100, 100⟩, fun _ _ => none, fun _ _ => true,
      fun _ _ => VerifyOutcome.fail⟩
    true (fun _ => (5, 5)) rfl (fun _ => rfl) (fun _ => rfl)
    (fun _ => rfl) (fun _ _ h => VerifyOutcome.noConfusion h)
  ⟨h.1, h.2.1⟩

theorem offsets_loop_offset_nonneg (env : ClickEnv) (round : Nat)
    (guard : Int) (vf vp : Bool) (base : Point) (rect : ScreenRect) :
    ∀ (offs : List (Int × Int)) (idx : Nat) (a : ClickAttemptResult),
      a ∈ (offsets_attempt_loop env round guard vf vp base rect offs idx).1 →
      0 ≤ a.offset_index := by
  intro offs
  induction offs with
  | nil =>
    intro idx a ha
    simp [offsets_attempt_loop] at ha
  | cons o rest ih =>
    intro idx a ha
    obtain ⟨dx, dy⟩ := o
    rcases hi : env.injectResult round idx with _ | d <;>
      rcases hvr : env.verifyResult round idx with _ | _ | d' <;>
      simp only [offsets_attempt_loop, hi, hvr] at ha <;>
      split_ifs at ha <;>
      simp only [List.mem_cons, List.mem_singleton] at ha
    all_goals
      first
      | (rcases ha with rfl | ha
         · simp
         · first
           | exact ih (idx + 1) a ha
           | simp at ha)


theorem rounds_loop_no_sentinel (flow : FlowClickConfig) (env : ClickEnv)
    (recover_enabled vp : Bool) (offsets : List (Int × Int)) (guard : Int)
    (vfg : Bool) :
    ∀ (fuel start : Nat) (a : ClickAttemptResult),
      a ∈ (rounds_loop flow env recover_enabled vp offsets guard vfg
        start fuel).1 →
      a.offset_index ≠ -2 := by
  intro fuel
  induction fuel with
  | zero =>
    intro start a ha
    simp [rounds_loop] at ha
  | succ n ih =>
    intro start a ha
    by_cases hac : env.activateOk start
    · rcases hrb : resolve_base_point_with_recover flow env start
          recover_enabled guard with ⟨rect0, reason⟩ | ⟨base, rect⟩
      · simp only [rounds_loop, hac, not_true, if_false, hrb,
          List.mem_cons] at ha
        rcases ha with rfl | ha
        · simp
        · exact ih (start + 1) a ha
      · rcases hofs : (offsets_attempt_loop env start guard vfg vp base rect
            offsets 0).2 with _ | s
        · simp only [rounds_loop, hac, not_true, if_false, hrb, hofs,
            List.mem_append] at ha
          rcases ha with ha | ha
          · have := offsets_loop_offset_nonneg env start guard vfg vp base
              rect offsets 0 a ha
            omega
          · exact ih (start + 1) a ha
        · simp only [rounds_loop, hac, not_true, if_false, hrb, hofs] at ha
          have := offsets_loop_offset_nonneg env start guard vfg vp base
            rect offsets 0 a ha
          omega
    · simp only [rounds_loop, hac, Bool.false_eq_true, not_false_eq_true,
        if_true, List.mem_cons] at ha
      rcases ha with rfl | ha
      · simp
      · exact ih (start + 1) a ha

theorem build_click_fallback_true_iff (kco vp : Bool)
    (vao : VerifyOutcome) :
    build_click_fallback true kco vp vao = true ↔
      (kco = true ∧ (vp = false ∨ vao = VerifyOutcome.pass)) := by
  cases kco <;> cases vp <;> rcases vao with _ | _ | d <;>
    simp [build_click_fallback]

/-- C1: when the main strategy rounds all fail, the OCR fallback flag is
on and a fallback built by `_build_click_fallback` is configured, the
click result succeeds exactly when the OCR keyword click succeeded and
the extra verification at point `(0, 0)` (when the builder was given a
verify callback) passes; on success the final reason is
`ocr_fallback_success` and exactly one fallback-triggered attempt record
(`offset_index = -2` — the single fallback invocation) appears in the
trace, and none otherwise. -/
theorem ocr_fallback_contract (flow : FlowClickConfig) (env : ClickEnv)
    (recover_enabled verify_present : Bool)
    (keyword_click_ok fb_verify_present : Bool)
    (verify_at_origin : VerifyOutcome)
    (hen : flow.click_strategy_enabled = true)
    (hfb : flow.click_ocr_fallback_enabled = true)
    (hfail : (rounds_loop flow env recover_enabled verify_present
      (build_candidate_offsets flow.click_candidates)
      (max 0 flow.click_point_guard_padding_px)
      flow.click_verify_foreground_enabled 1
      (max 1 flow.click_max_attempts).toNat).2 = none) :
    ((click_point_with_strategy flow env recover_enabled verify_present
        (some (if build_click_fallback flow.click_ocr_fallback_enabled
            keyword_click_ok fb_verify_present verify_at_origin
          then FallbackOutcome.ok else FallbackOutcome.notOk))).success
        = true ↔
      (keyword_click_ok = true ∧
        (fb_verify_present = false ∨
          verify_at_origin = VerifyOutcome.pass))) ∧
    ((click_point_with_strategy flow env recover_enabled verify_present
        (some (if build_click_fallback flow.click_ocr_fallback_enabled
            keyword_click_ok fb_verify_present verify_at_origin
          then FallbackOutcome.ok else FallbackOutcome.notOk))).success
        = true →
      (click_point_with_strategy flow env recover_enabled verify_present
        (some (if build_click_fallback flow.click_ocr_fallback_enabled
            keyword_click_ok fb_verify_present verify_at_origin
          then FallbackOutcome.ok
          else FallbackOutcome.notOk))).final_reason =
        ClickReason.ocr_fallback_success) ∧
    ((click_point_with_strategy flow env recover_enabled verify_present
        (some (if build_click_fallback flow.click_ocr_fallback_enabled
            keyword_click_ok fb_verify_present verify_at_origin
          then FallbackOutcome.ok
          else FallbackOutcome.notOk))).attempts.countP
        (fun a => decide (a.offset_index = -2)) =
      if (click_point_with_strategy flow env recover_enabled verify_present
        (some (if build_click_fallback flow.click_ocr_fallback_enabled
            keyword_click_ok fb_verify_present verify_at_origin
          then FallbackOutcome.ok
          else FallbackOutcome.notOk))).success
      then 1 else 0) := by
  have hzero : (rounds_loop flow env recover_enabled verify_present
      (build_candidate_offsets flow.click_candidates)
      (max 0 flow.click_point_guard_padding_px)
      flow.click_verify_foreground_enabled 1
      (max 1 flow.click_max_attempts).toNat).1.countP
      (fun a => decide (a.offset_index = -2)) = 0 := by
    rw [List.countP_eq_zero]
    intro a ha
    have := rounds_loop_no_sentinel flow env recover_enabled verify_present
      (build_candidate_offsets flow.click_candidates)
      (max 0 flow.click_point_guard_padding_px)
      flow.click_verify_foreground_enabled
      (max 1 flow.click_max_attempts).toNat 1 a ha
    simp [this]
  rcases Bool.eq_false_or_eq_true (build_click_fallback true
      keyword_click_ok fb_verify_present verify_at_origin) with hb | hb
  · have hite : (if build_click_fallback true keyword_click_ok
        fb_verify_present verify_at_origin then FallbackOutcome.ok
        else FallbackOutcome.notOk) = FallbackOutcome.ok := by
      rw [hb]; rfl
    have hres : click_point_with_strategy flow env recover_enabled
        verify_present (some FallbackOutcome.ok) =
        ⟨true,
          (rounds_loop flow env recover_enabled verify_present
            (build_candidate_offsets flow.click_candidates)
            (max 0 flow.click_point_guard_padding_px)
            flow.click_verify_foreground_enabled 1
            (max 1 flow.click_max_attempts).toNat).1 ++
            [⟨true, (0, 0), (max 1 flow.click_max_attempts).toNat, -2,
              ClickReason.ocr_fallback_success⟩],
          ClickReason.ocr_fallback_success, none⟩ := by
      simp only [click_point_with_strategy, hen, not_true, if_false, hfail,
        hfb, if_true]
    rw [hfb, hite, hres]
    refine ⟨iff_of_true rfl ((build_click_fallback_true_iff keyword_click_ok
      fb_verify_present verify_at_origin).1 hb), fun _ => rfl, ?_⟩
    dsimp only
    rw [List.countP_append, hzero]
    simp
  · have hite : (if build_click_fallback true keyword_click_ok
        fb_verify_present verify_at_origin then FallbackOutcome.ok
        else FallbackOutcome.notOk) = FallbackOutcome.notOk := by
      rw [hb]; rfl
    have hres : click_point_with_strategy flow env recover_enabled
        verify_present (some FallbackOutcome.notOk) =
        ⟨false,
          (rounds_loop flow env recover_enabled verify_present
            (build_candidate_offsets flow.click_candidates)
            (max 0 flow.click_point_guard_padding_px)
            flow.click_verify_foreground_enabled 1
            (max 1 flow.click_max_attempts).toNat).1,
          last_attempt_reason
            (rounds_loop flow env recover_enabled verify_present
              (build_candidate_offsets flow.click_candidates)
              (max 0 flow.click_point_guard_padding_px)
              flow.click_verify_foreground_enabled 1
              (max 1 flow.click_max_attempts).toNat).1,
          none⟩ := by
      simp only [click_point_with_strategy, hen, not_true, if_false, hfail,
        hfb, if_true]
    rw [hfb, hite, hres]
    refine ⟨iff_of_false (by simp) ?_, ?_, ?_⟩
    · intro hr
      rw [(build_click_fallback_true_iff keyword_click_ok
        fb_verify_present verify_at_origin).2 hr] at hb
      exact Bool.noConfusion hb
    · intro h
      exact absurd h (by simp)
    · dsimp only
      simpa using hzero

/-- Witness for C1 at spec example scenario 4: 1 offset, 1 round, verify
always false, fallback keyword click succeeding with no extra verify
requirement — the result is success with reason `ocr_fallback_success`. -/
theorem ocr_fallback_contract_witness :
    (click_point_with_strategy
      ⟨true, 1, 0, true, true, [RawOffset.pair 0 0], [RawBackoff.ms 100], 1⟩
      ⟨fun _ => true, fun _ _ => Except.ok (5, 5),
        fun _ _ => ⟨0, 0, 100, 100⟩, fun _ _ => none, fun _ _ => true,
        fun _ _ => VerifyOutcome.fail⟩
      true true
      (some (if build_click_fallback
          (FlowClickConfig.mk true 1 0 true true [RawOffset.pair 0 0]
            [RawBackoff.ms 100] 1).click_ocr_fallback_enabled
          true false VerifyOutcome.fail
        then FallbackOutcome.ok
        else FallbackOutcome.notOk))).success = true ∧
    (click_point_with_strategy
      ⟨true, 1, 0, true, true, [RawOffset.pair 0 0], [RawBackoff.ms 100], 1⟩
      ⟨fun _ => true, fun _ _ => Except.ok (5, 5),
        fun _ _ => ⟨0, 0, 100, 100⟩, fun _ _ => none, fun _ _ => true,
        fun _ _ => VerifyOutcome.fail⟩
      true true
      (some (if build_click_fallback
          (FlowClickConfig.mk true 1 0 true true [RawOffset.pair 0 0]
            [RawBackoff.ms 100] 1).click_ocr_fallback_enabled
          true false VerifyOutcome.fail
        then FallbackOutcome.ok
        else FallbackOutcome.notOk))).final_reason =
      ClickReason.ocr_fallback_success :=
  have h := ocr_fallback_contract
    ⟨true, 1, 0, true, true, [RawOffset.pair 0 0], [RawBackoff.ms 100], 1⟩
    ⟨fun _ => true, fun _ _ => Except.ok (5, 5),
      fun _ _ => ⟨0, 0, 100, 100⟩, fun _ _ => none, fun _ _ => true,
      fun _ _ => VerifyOutcome.fail⟩
    true true true false VerifyOutcome.fail rfl rfl (by decide)
  have hs := h.1.mpr ⟨rfl, Or.inl rfl⟩
  ⟨hs, h.2.1 hs⟩

end AutoLogin
